import Mathlib

/-!
Verification of the Yusr backend (a document-reading chatbot backend).

The backend consists of request handlers (FastAPI routers in
`backend/routers/`, plus an older Flask variant in `backend/app.py`)
over a thin OpenAI service layer (`backend/services/openai_service.py`)
and a local PDF text-extraction endpoint.

Modelling conventions of this shallow embedding:
- A Python `str` is a list of Unicode codepoints, `List Nat`.
- Each HTTP handler is a pure function from its parsed inputs to an
  outcome type whose constructors separate "HTTP error raised before any
  remote call" (`httpError`) from "the remote service call is performed
  with these arguments" (`call` / `audio` / `ok`).
- Outcomes of remote API calls and of the PDF library are parameters of
  the embedded handlers (success value or raised message), since they are
  produced by external collaborators.
- Filesystem effects of the transcription handler are modelled by explicit
  state passing of a record tracking the temporary file.
-/

/-- Codepoints satisfying Python `str.isspace` — the character set removed
by `str.strip()` (ASCII whitespace, the Unicode space separators, and the
line/paragraph separators). -/
def isPyWS (c : Nat) : Bool :=
  (9 ≤ c && c ≤ 13) || (28 ≤ c && c ≤ 31) || c == 32 || c == 0x85 || c == 0xA0 ||
  c == 0x1680 || (0x2000 ≤ c && c ≤ 0x200A) || c == 0x2028 || c == 0x2029 ||
  c == 0x202F || c == 0x205F || c == 0x3000

/-- Python `s.strip()`: remove leading and trailing whitespace. -/
def pyStrip (l : List Nat) : List Nat :=
  ((l.dropWhile isPyWS).reverse.dropWhile isPyWS).reverse

/-- ASCII case folding of one codepoint. Python `str.lower()` restricted to
ASCII; every case comparison in the backend is against a pure-ASCII literal
(file extensions, the substring "pdf"). -/
def toLowerCp (c : Nat) : Nat := if 65 ≤ c && c ≤ 90 then c + 32 else c

/-- Python `s.lower()` (ASCII fragment, see `toLowerCp`). -/
def lowerCp (l : List Nat) : List Nat := l.map toLowerCp

/-- Codepoints of a Lean string literal, for writing ASCII constants of the
source conveniently. -/
def strCp (s : String) : List Nat := s.data.map Char.toNat

/-- Python `needle in hay` on strings: substring containment. -/
def isSubstrOf (needle : List Nat) : List Nat → Bool
  | [] => needle.isEmpty
  | c :: rest => needle.isPrefixOf (c :: rest) || isSubstrOf needle rest

/-- Python truthiness of an optional string: `None` and `""` are falsy. -/
def pyTruthy : Option (List Nat) → Bool
  | none => false
  | some s => !s.isEmpty

/-- `_extension` from `routers/transcribe.py` and `routers/assistant.py`:
`filename.rsplit(".", 1)[-1].lower() if "." in filename else ""`
(codepoint 46 is `.`). -/
def _extension (filename : List Nat) : List Nat :=
  if filename.contains 46 then
    lowerCp (filename.reverse.takeWhile (fun c => c ≠ 46)).reverse
  else []

/-- Python `s.rsplit(".", 1)[0]`: everything before the last dot, or the whole
string when it has no dot (used for the assistant file name). -/
def beforeLastDot (l : List Nat) : List Nat :=
  if l.contains 46 then ((l.reverse.dropWhile (fun c => c ≠ 46)).drop 1).reverse
  else l

/-!  The diacritic-reattachment transform of `routers/pdf.py` / `main.py`.

`_COMBINING_RE = re.compile(r" +([ؐ-ًؚ-ٰٟۖ-ۜ۟-۪ۤۧۨ-ۭ]+)")`
and each line is rewritten by `_COMBINING_RE.sub(r"\1", line).strip()`.

`re.sub` scans left to right taking non-overlapping leftmost matches; a match
is a maximal run of spaces followed by a (greedily maximal) nonempty run of
combining marks, and it is replaced by that run of marks.  Its net effect on
the character sequence is therefore: delete exactly those spaces that sit in
a run of spaces immediately followed by a combining mark, and keep every
other character.  (A maximal space run followed by a mark is always matched:
matches end at a non-mark character, hence never end inside a space run, so
the scanner always reaches the first space of such a run.)  `combiningSub`
below implements that characterisation by structural recursion: a space is
dropped exactly when the remainder of the line consists of zero or more
further spaces and then a combining mark. -/

/-- The combining-mark character class of `_COMBINING_RE`. -/
def isCombining (c : Nat) : Bool :=
  (0x610 ≤ c && c ≤ 0x61A) || (0x64B ≤ c && c ≤ 0x65F) || c == 0x670 ||
  (0x6D6 ≤ c && c ≤ 0x6DC) || (0x6DF ≤ c && c ≤ 0x6E4) || c == 0x6E7 ||
  c == 0x6E8 || (0x6EA ≤ c && c ≤ 0x6ED)

/-- Does the list start with zero or more spaces followed by a combining
mark?  (Equivalently: is a space placed in front of it deleted by
`_COMBINING_RE.sub`?) -/
def leadsToComb : List Nat → Bool
  | [] => false
  | c :: rest => if c == 32 then leadsToComb rest else isCombining c

/-- `_COMBINING_RE.sub(r"\1", line)`: delete every space belonging to a run
of spaces immediately followed by a combining mark; keep all other
characters. -/
def combiningSub : List Nat → List Nat
  | [] => []
  | c :: rest =>
    if c == 32 && leadsToComb rest then combiningSub rest
    else c :: combiningSub rest

/-- One line of the loop body of `_extract_page_text`:
`_COMBINING_RE.sub(r"\1", line).strip()`. -/
def cleanLine (l : List Nat) : List Nat := pyStrip (combiningSub l)

/-- `_extract_page_text` after `raw.splitlines()`: clean each line, keep the
nonempty ones, join with a newline (codepoint 10). -/
def _extract_page_text (rawLines : List (List Nat)) : List Nat :=
  List.intercalate [10] ((rawLines.map cleanLine).filter (fun l => !l.isEmpty))

/-! Cleanliness: a line is `clean` when no space is immediately followed by a
combining mark, i.e. the regex has no match in it. -/

/-- Does the list start with a combining mark? -/
def headComb : List Nat → Bool
  | [] => false
  | c :: _ => isCombining c

/-- No space of the list is immediately followed by a combining mark. -/
def clean : List Nat → Bool
  | [] => true
  | c :: rest => !(c == 32 && headComb rest) && clean rest

theorem leadsToComb_eq_false (rest : List Nat) (h₁ : headComb rest = false)
    (h₂ : clean rest = true) : leadsToComb rest = false := by
  induction rest with
  | nil => rfl
  | cons c r ih =>
    simp only [clean, Bool.and_eq_true, Bool.not_eq_eq_eq_not, Bool.not_true] at h₂
    simp only [headComb] at h₁
    simp only [leadsToComb]
    by_cases hc : c == 32
    · simp only [hc, if_true]
      have hcv : c = 32 := by simpa using hc
      have hr : headComb r = false := by
        rcases h₂ with ⟨hpair, _⟩
        simpa [hcv] using hpair
      exact ih hr h₂.2
    · simp only [hc, if_false]
      exact h₁

theorem combiningSub_of_clean (l : List Nat) (h : clean l = true) :
    combiningSub l = l := by
  induction l with
  | nil => rfl
  | cons c rest ih =>
    simp only [clean, Bool.and_eq_true, Bool.not_eq_eq_eq_not, Bool.not_true] at h
    have hcond : (c == 32 && leadsToComb rest) = false := by
      by_cases hc : c == 32
      · have hcv : c = 32 := by simpa using hc
        have hhead : headComb rest = false := by
          rcases h with ⟨hpair, _⟩
          simpa [hcv] using hpair
        simp [hc, leadsToComb_eq_false rest hhead h.2]
      · simp [hc]
    simp [combiningSub, hcond, ih h.2]

theorem headComb_combiningSub (rest : List Nat) (h : leadsToComb rest = false) :
    headComb (combiningSub rest) = false := by
  cases rest with
  | nil => rfl
  | cons d r =>
    simp only [leadsToComb] at h
    by_cases hd : d == 32
    · have hdv : d = 32 := by simpa using hd
      simp only [hd, if_true] at h
      simp [combiningSub, hd, h, headComb, hdv, isCombining]
    · have h' : isCombining d = false := by simpa [hd] using h
      simp [combiningSub, hd, headComb, h']

theorem clean_combiningSub (l : List Nat) : clean (combiningSub l) = true := by
  induction l with
  | nil => rfl
  | cons c rest ih =>
    by_cases hcond : (c == 32 && leadsToComb rest) = true
    · simp [combiningSub, hcond, ih]
    · have hcond' : (c == 32 && leadsToComb rest) = false := by
        simpa using hcond
      simp only [combiningSub, hcond', if_false]
      simp only [clean, Bool.and_eq_true, Bool.not_eq_eq_eq_not, Bool.not_true]
      refine ⟨?_, ih⟩
      by_cases hc : c == 32
      · have hlc : leadsToComb rest = false := by
          simpa [hc] using hcond'
        simp [headComb_combiningSub rest hlc]
      · simp [hc]

/-! `clean` is inherited by appending-decompositions (hence by `strip`,
which keeps a contiguous middle portion of the line). -/

theorem clean_append_left (l₁ l₂ : List Nat) (h : clean (l₁ ++ l₂) = true) :
    clean l₁ = true := by
  induction l₁ with
  | nil => rfl
  | cons a t ih =>
    simp only [List.cons_append, clean, Bool.and_eq_true, Bool.not_eq_eq_eq_not,
      Bool.not_true] at h ⊢
    refine ⟨?_, ih h.2⟩
    cases t with
    | nil => simp [headComb]
    | cons b t' =>
      have := h.1
      simpa [headComb] using this

theorem clean_append_right (l₁ l₂ : List Nat) (h : clean (l₁ ++ l₂) = true) :
    clean l₂ = true := by
  induction l₁ with
  | nil => simpa using h
  | cons a t ih =>
    simp only [List.cons_append, clean, Bool.and_eq_true] at h
    exact ih h.2

theorem dropWhile_append_eq (p : Nat → Bool) (l : List Nat) :
    ∃ t, t ++ l.dropWhile p = l := by
  induction l with
  | nil => exact ⟨[], rfl⟩
  | cons a r ih =>
    by_cases hp : p a = true
    · rcases ih with ⟨t, ht⟩
      exact ⟨a :: t, by simp [List.dropWhile, hp, ht]⟩
    · exact ⟨[], by simp [List.dropWhile, hp]⟩

theorem clean_pyStrip (l : List Nat) (h : clean l = true) :
    clean (pyStrip l) = true := by
  rcases dropWhile_append_eq isPyWS l with ⟨t, ht⟩
  have hy : clean (l.dropWhile isPyWS) = true := by
    rw [← ht] at h
    exact clean_append_right t _ h
  rcases dropWhile_append_eq isPyWS (l.dropWhile isPyWS).reverse with ⟨u, hu⟩
  have hy' : l.dropWhile isPyWS =
      ((l.dropWhile isPyWS).reverse.dropWhile isPyWS).reverse ++ u.reverse := by
    have h2 := congrArg List.reverse hu
    simp only [List.reverse_append, List.reverse_reverse] at h2
    exact h2.symm
  rw [hy'] at hy
  exact clean_append_left _ _ hy

/-! `strip` is idempotent. -/

theorem head_not_of_dropWhile (p : Nat → Bool) (l : List Nat) (a : Nat)
    (h : (l.dropWhile p).head? = some a) : p a = false := by
  induction l with
  | nil => simp [List.dropWhile] at h
  | cons c r ih =>
    by_cases hp : p c = true
    · rw [List.dropWhile_cons_of_pos hp] at h
      exact ih h
    · rw [List.dropWhile_cons_of_neg hp] at h
      simp only [List.head?_cons, Option.some.injEq] at h
      subst h
      simpa using hp

theorem dropWhile_eq_self_of_head (p : Nat → Bool) (l : List Nat)
    (h : ∀ a, l.head? = some a → p a = false) : l.dropWhile p = l := by
  cases l with
  | nil => rfl
  | cons c r =>
    have hc : p c = false := h c rfl
    simp [List.dropWhile, hc]

theorem pyStrip_idem (l : List Nat) : pyStrip (pyStrip l) = pyStrip l := by
  have hz : pyStrip l =
      ((l.dropWhile isPyWS).reverse.dropWhile isPyWS).reverse := rfl
  rcases dropWhile_append_eq isPyWS (l.dropWhile isPyWS).reverse with ⟨u, hu⟩
  have hyz : l.dropWhile isPyWS =
      ((l.dropWhile isPyWS).reverse.dropWhile isPyWS).reverse ++ u.reverse := by
    have h2 := congrArg List.reverse hu
    simp only [List.reverse_append, List.reverse_reverse] at h2
    exact h2.symm
  have hstep1 :
      (((l.dropWhile isPyWS).reverse.dropWhile isPyWS).reverse).dropWhile isPyWS =
      ((l.dropWhile isPyWS).reverse.dropWhile isPyWS).reverse := by
    apply dropWhile_eq_self_of_head
    intro a ha
    apply head_not_of_dropWhile isPyWS l a
    rw [hyz]
    cases hdr : ((l.dropWhile isPyWS).reverse.dropWhile isPyWS).reverse with
    | nil =>
      rw [hdr] at ha
      simp at ha
    | cons b t =>
      rw [hdr] at ha
      rw [List.cons_append, List.head?_cons]
      rw [List.head?_cons] at ha
      exact ha
  have hstep2 :
      (((l.dropWhile isPyWS).reverse.dropWhile isPyWS).reverse.reverse).dropWhile isPyWS =
      ((l.dropWhile isPyWS).reverse.dropWhile isPyWS).reverse.reverse := by
    apply dropWhile_eq_self_of_head
    intro a ha
    rw [List.reverse_reverse] at ha
    exact head_not_of_dropWhile isPyWS (l.dropWhile isPyWS).reverse a ha
  calc pyStrip (pyStrip l)
      = ((((l.dropWhile isPyWS).reverse.dropWhile isPyWS).reverse.dropWhile
          isPyWS).reverse.dropWhile isPyWS).reverse := by rw [hz]; rfl
    _ = ((((l.dropWhile isPyWS).reverse.dropWhile
          isPyWS).reverse.reverse).dropWhile isPyWS).reverse := by rw [hstep1]
    _ = ((l.dropWhile isPyWS).reverse.dropWhile isPyWS).reverse.reverse.reverse := by
          rw [hstep2]
    _ = pyStrip l := by rw [List.reverse_reverse, hz]

/-! Embedding of `extract_pdf` (`routers/pdf.py`, identical in `main.py`).

The body read and the PDF parse are performed by FastAPI / PyMuPDF; their
outcomes are parameters.  A parsed document is the list of its pages, each
page given as the line list produced by `page.get_text("text", sort=True)`
followed by `splitlines()`. -/

/-- Outcome of `await file.read()`. -/
inductive ReadResult where
  | ok (body : List Nat)
  | raised (msg : String)

/-- Outcome of `fitz.open(stream=body, filetype="pdf")` plus page iteration. -/
inductive ParseResult where
  | ok (pages : List (List (List Nat)))
  | raised (msg : String)

/-- Result of the `extract_pdf` handler. -/
inductive ExtractOutcome where
  | httpError (status : Nat) (detail : String)
  | ok (text : List Nat)
deriving DecidableEq

/-- The part of `extract_pdf` after the content-type check: read the body,
parse the PDF, extract and join the page texts, strip. -/
def extract_pdf_after_gate (read : ReadResult) (parse : ParseResult) :
    ExtractOutcome :=
  match read with
  | .raised e => .httpError 400 ("Failed to read file: " ++ e)
  | .ok _ =>
    match parse with
    | .raised e => .httpError 400 ("Invalid or corrupted PDF: " ++ e)
    | .ok pages =>
      .ok (pyStrip (List.intercalate [10, 10] (pages.map _extract_page_text)))

/-- `extract_pdf` from `routers/pdf.py`:
`if file.content_type and "pdf" not in file.content_type.lower()` raise 400,
otherwise proceed to read and parse. -/
def extract_pdf (content_type : Option (List Nat)) (read : ReadResult)
    (parse : ParseResult) : ExtractOutcome :=
  if pyTruthy content_type &&
      !(isSubstrOf (strCp "pdf") (lowerCp ((content_type).getD []))) then
    .httpError 400 "File must be a PDF"
  else extract_pdf_after_gate read parse

/-! Embedding of `create_assistant` (`routers/assistant.py`). -/

/-- `_ALLOWED_DOC_EXTENSIONS = \x7b"pdf", "txt"\x7d`. -/
def ALLOWED_DOC_EXTENSIONS : List (List Nat) := [strCp "pdf", strCp "txt"]

/-- A FastAPI `UploadFile`; only its filename is inspected before the body is
written to the temporary file. -/
structure UploadFileIn where
  filename : Option (List Nat)

/-- The parsed multipart form of an assistant-creation request.  `file_name`
is the received form value (FastAPI substitutes the form default "document"
when the field is absent). -/
structure CreateRequest where
  pdf : Option UploadFileIn
  text : Option (List Nat)
  file_name : List Nat

/-- Result of the `create_assistant` handler: either an HTTP error raised
before any remote call, or the invocation of
`create_assistant_with_file(text_content, pdf_file_path, file_name)` (with
`pdf_written` recording whether a temporary PDF file was written and passed). -/
inductive CreateOutcome where
  | httpError (status : Nat) (detail : String)
  | call (text_content : Option (List Nat)) (pdf_written : Bool)
      (file_name : List Nat)
deriving DecidableEq

/-- `create_assistant` from `routers/assistant.py`. -/
def create_assistant (req : CreateRequest) : CreateOutcome :=
  let name := if req.file_name.isEmpty then strCp "document" else req.file_name
  match req.pdf with
  | some pdf =>
    let fn := pdf.filename.getD []
    if !ALLOWED_DOC_EXTENSIONS.contains (_extension fn) then
      .httpError 400 "Only PDF or TXT files are accepted"
    else
      .call none true (beforeLastDot (if fn.isEmpty then strCp "document" else fn))
  | none =>
    match req.text with
    | some t =>
      if !t.isEmpty then .call (some t) false name
      else .httpError 400 "Either text or a PDF file must be provided"
    | none => .httpError 400 "Either text or a PDF file must be provided"

/-! Embedding of `chat_message`: the FastAPI variant (`routers/chat.py`,
whose pydantic body has three required string fields) and the Flask variant
(`app.py`, where `data.get(...)` can also yield `None` for an absent field). -/

/-- Result of a chat handler: an HTTP error, or the remote call
`send_message(thread_id, assistant_id, message)`. -/
inductive ChatOutcome where
  | httpError (status : Nat) (detail : String)
  | call (thread_id assistant_id message : List Nat)
deriving DecidableEq

/-- Pydantic body of `routers/chat.py`. -/
structure ChatRequest where
  thread_id : List Nat
  assistant_id : List Nat
  message : List Nat

/-- `chat_message` from `routers/chat.py`:
`if not body.thread_id or not body.assistant_id or not body.message` raise
400, else call `send_message`. -/
def chat_message (body : ChatRequest) : ChatOutcome :=
  if body.thread_id.isEmpty || body.assistant_id.isEmpty || body.message.isEmpty then
    .httpError 400 "thread_id, assistant_id, and message are required"
  else .call body.thread_id body.assistant_id body.message

/-- The JSON body as read by the Flask handler: `data.get(...)` yields `None`
for an absent key. -/
structure ChatJson where
  thread_id : Option (List Nat)
  assistant_id : Option (List Nat)
  message : Option (List Nat)

/-- `chat_message` from `app.py`:
`if not all([thread_id, assistant_id, message])` return 400, else call
`send_message`. -/
def app_chat_message (data : ChatJson) : ChatOutcome :=
  if pyTruthy data.thread_id && pyTruthy data.assistant_id &&
      pyTruthy data.message then
    .call (data.thread_id.getD []) (data.assistant_id.getD [])
      (data.message.getD [])
  else .httpError 400 "thread_id, assistant_id, and message are required"

/-! Embedding of `text_to_speech` (`routers/tts.py`). -/

/-- Result of the tts handler: an HTTP error, or the remote call
`synthesize_speech(req.text, req.voice)` whose bytes are returned with the
`audio/mpeg` media type. -/
inductive TTSOutcome where
  | httpError (status : Nat) (detail : String)
  | audio (text : List Nat) (voice : List Nat)
deriving DecidableEq

/-- `text_to_speech` from `routers/tts.py`:
`if not req.text.strip()` raise 400, else synthesize. -/
def text_to_speech (text : List Nat) (voice : List Nat) : TTSOutcome :=
  if (pyStrip text).isEmpty then .httpError 400 "text is required"
  else .audio text voice

/-! Embedding of `transcribe` (`routers/transcribe.py`), with explicit
filesystem state for the temporary audio file.  The handler starts with no
temporary file; `NamedTemporaryFile(delete=False)` plus the write create it,
and the `finally` block of the `transcribe_audio` call unlinks it. -/

/-- `_ALLOWED_AUDIO_EXTENSIONS` from `routers/transcribe.py`. -/
def ALLOWED_AUDIO_EXTENSIONS : List (List Nat) :=
  [strCp "webm", strCp "wav", strCp "mp3", strCp "ogg", strCp "mp4", strCp "m4a"]

/-- Outcome of the remote `transcribe_audio` call. -/
inductive RemoteTranscription where
  | ok (text : String)
  | raised (msg : String)

/-- State of the temporary audio file across the handler. -/
structure TempFileState where
  written : Bool
  exists_now : Bool
deriving DecidableEq

/-- Response of the `transcribe` handler: an HTTP 400, the transcript, or a
propagated exception from the remote call. -/
inductive TranscribeResponse where
  | httpError (status : Nat) (detail : String)
  | ok (text : String)
  | raised (msg : String)
deriving DecidableEq

/-- `transcribe` from `routers/transcribe.py`.  Returns the response together
with the final temporary-file state.  The extension gate runs before the file
is written; afterwards `try: transcribe_audio(...) finally: os.unlink` runs
the unlink on the success and on the exception path alike. -/
def transcribe (filename : Option (List Nat)) (remote : RemoteTranscription) :
    TranscribeResponse × TempFileState :=
  let ext := _extension (filename.getD [])
  if !ALLOWED_AUDIO_EXTENSIONS.contains ext then
    (.httpError 400 "Invalid audio file format", ⟨false, false⟩)
  else
    let fsWritten : TempFileState := ⟨true, true⟩
    let fsCleaned : TempFileState :=
      if fsWritten.exists_now then { fsWritten with exists_now := false }
      else fsWritten
    match remote with
    | .ok t => (.ok t, fsCleaned)
    | .raised m => (.raised m, fsCleaned)

/-! Embedding of `send_message` (`services/openai_service.py`).  The polling
loop leaves the run in a terminal status; the message list fetched afterwards
(`order="desc", limit=1`) has its most recent message first. -/

/-- One content block of a thread message. -/
inductive ContentBlock where
  | text (value : String)
  | other (kind : String)
deriving DecidableEq

/-- A thread message as returned by `messages.list`. -/
structure ThreadMessage where
  content : List ContentBlock
deriving DecidableEq

/-- The `for content_block in response_message.content` loop: value of the
first block whose type is "text", if any. -/
def firstTextValue : List ContentBlock → Option String
  | [] => none
  | .text v :: _ => some v
  | .other _ :: rest => firstTextValue rest

/-- The fixed fallback string returned when no text block is found. -/
def FALLBACK : String := "I couldn\x27t generate a response. Please try again."

/-- The response-extraction tail of `send_message`: `if messages.data:` take
`data[0]`, scan its content for the first text block; otherwise (or when no
text block exists) return the fallback. -/
def extract_response (messagesData : List ThreadMessage) : String :=
  match messagesData with
  | [] => FALLBACK
  | m :: _ =>
    match firstTextValue m.content with
    | some v => v
    | none => FALLBACK

/-- `send_message` after the polling loop: `finalStatus` is the run status on
leaving the loop; a non-"completed" status raises, otherwise the most recent
message is fetched (as `messagesData`) and its text extracted. -/
def send_message (finalStatus : String) (messagesData : List ThreadMessage) :
    Except String String :=
  if finalStatus ≠ "completed" then
    .error ("Run failed with status: " ++ finalStatus)
  else .ok (extract_response messagesData)

/-! Embedding of `delete_assistant` (`services/openai_service.py`).  The
outcome of each remote deletion call is a parameter; the function returns the
list of calls actually attempted (in order) together with the handler result.
The outer `try/except` re-raises a failure of the assistant deletion; the two
inner `try/except` blocks print and swallow failures of the vector-store and
file deletions. -/

/-- Outcome of one remote deletion call. -/
inductive APIResult where
  | ok
  | err (msg : String)
deriving DecidableEq

/-- The three remote deletion calls. -/
inductive DeleteCall where
  | assistantDel
  | vectorStoreDel
  | fileDel
deriving DecidableEq

/-- Environment: what each remote deletion call would do if attempted. -/
structure DeleteEnv where
  assistantDelete : APIResult
  vectorStoreDelete : APIResult
  fileDelete : APIResult

/-- `delete_assistant(assistant_id, vector_store_id, file_id)`: first the
assistant deletion (failure propagates and aborts); then, if ids were
supplied, the vector-store and file deletions, whose results are logged and
discarded. -/
def delete_assistant (vector_store_id file_id : Option String)
    (env : DeleteEnv) : List DeleteCall × Except String Unit :=
  match env.assistantDelete with
  | .err e => ([.assistantDel], .error e)
  | .ok =>
    let vsCalls : List DeleteCall :=
      match vector_store_id with
      | some _ =>
        match env.vectorStoreDelete with
        | .ok => [.vectorStoreDel]
        | .err _ => [.vectorStoreDel]
      | none => []
    let fCalls : List DeleteCall :=
      match file_id with
      | some _ =>
        match env.fileDelete with
        | .ok => [.fileDel]
        | .err _ => [.fileDel]
      | none => []
    (.assistantDel :: vsCalls ++ fCalls, .ok ())

/-! The claims. -/

/-- C1: for the line consisting of the Arabic letter hah (U+062D) with a
fatha (U+064E), a space, and an isolated shadda (U+0651), the
diacritic-reattachment transform used in PDF extraction removes the space and
attaches the shadda to the preceding text, both at the line level and through
`_extract_page_text`. -/
theorem C1_diacritic_reattachment :
    cleanLine [0x62D, 0x64E, 32, 0x651] = [0x62D, 0x64E, 0x651] ∧
    _extract_page_text [[0x62D, 0x64E, 32, 0x651]] = [0x62D, 0x64E, 0x651] := by
  constructor <;> rfl

/-- C2: the per-line diacritic-reattachment transform
(`_COMBINING_RE.sub` followed by `strip`) is idempotent: applying it twice to
any line yields the same result as applying it once. -/
theorem C2_cleanLine_idempotent (l : List Nat) :
    cleanLine (cleanLine l) = cleanLine l := by
  show pyStrip (combiningSub (pyStrip (combiningSub l))) =
    pyStrip (combiningSub l)
  rw [combiningSub_of_clean _ (clean_pyStrip _ (clean_combiningSub l))]
  exact pyStrip_idem (combiningSub l)

/-- C3: in assistant creation, a present PDF upload takes precedence — the
outcome never depends on the text field when a PDF is present; with neither
input source the handler raises 400; with an unrecognized upload extension it
raises 400.  (An `httpError` outcome is raised before
`create_assistant_with_file`, so no remote call is made.) -/
theorem C3_create_assistant_precedence :
    (∀ (req : CreateRequest) (t' : Option (List Nat)), req.pdf.isSome →
      create_assistant req = create_assistant { req with text := t' }) ∧
    (∀ req : CreateRequest, req.pdf = none → req.text = none →
      create_assistant req =
        .httpError 400 "Either text or a PDF file must be provided") ∧
    (∀ (req : CreateRequest) (pdf : UploadFileIn), req.pdf = some pdf →
      ALLOWED_DOC_EXTENSIONS.contains (_extension (pdf.filename.getD [])) = false →
      create_assistant req = .httpError 400 "Only PDF or TXT files are accepted") := by
  refine ⟨?_, ?_, ?_⟩
  · rintro ⟨p, t, f⟩ t' hp
    cases p with
    | none => simp at hp
    | some pdf => rfl
  · rintro ⟨p, t, f⟩ hp ht
    subst hp
    subst ht
    rfl
  · rintro ⟨p, t, f⟩ pdf hp hext
    subst hp
    simp only [create_assistant]
    rw [hext]
    rfl

/-- Witness for C3 at concrete requests. -/
theorem C3_create_assistant_precedence_witness :
    create_assistant ⟨some ⟨some (strCp "doc.pdf")⟩, some (strCp "ignored"),
        strCp "document"⟩ =
      create_assistant ⟨some ⟨some (strCp "doc.pdf")⟩, none, strCp "document"⟩ ∧
    create_assistant ⟨none, none, strCp "document"⟩ =
      .httpError 400 "Either text or a PDF file must be provided" ∧
    create_assistant ⟨some ⟨some (strCp "doc.exe")⟩, some (strCp "ignored"),
        strCp "document"⟩ =
      .httpError 400 "Only PDF or TXT files are accepted" :=
  ⟨C3_create_assistant_precedence.1 _ none rfl,
   C3_create_assistant_precedence.2.1 _ rfl rfl,
   C3_create_assistant_precedence.2.2 _ _ rfl (by decide)⟩

/-- C4: a chat request with any of thread_id, assistant_id, message empty (or,
in the Flask variant where absence is representable, absent) is rejected with
status 400 and the handler never reaches the `send_message` call. -/
theorem C4_chat_message_400 :
    (∀ data : ChatJson,
      (data.thread_id.getD [] = [] ∨ data.assistant_id.getD [] = [] ∨
        data.message.getD [] = []) →
      app_chat_message data =
        .httpError 400 "thread_id, assistant_id, and message are required") ∧
    (∀ body : ChatRequest,
      (body.thread_id = [] ∨ body.assistant_id = [] ∨ body.message = []) →
      chat_message body =
        .httpError 400 "thread_id, assistant_id, and message are required") := by
  have key : ∀ o : Option (List Nat), o.getD [] = [] → pyTruthy o = false := by
    rintro (_ | s) ho
    · rfl
    · simp only [Option.getD_some] at ho
      simp [pyTruthy, ho]
  constructor
  · rintro ⟨t, a, m⟩ h
    unfold app_chat_message
    rcases h with h | h | h <;> simp [key _ h]
  · intro body h
    unfold chat_message
    rcases h with h | h | h <;> rw [h] <;> simp

/-- Witness for C4: absent assistant_id (Flask variant) and empty message
(FastAPI variant). -/
theorem C4_chat_message_400_witness :
    app_chat_message ⟨some (strCp "t1"), none, some (strCp "hello")⟩ =
      .httpError 400 "thread_id, assistant_id, and message are required" ∧
    chat_message ⟨strCp "t1", strCp "a1", []⟩ =
      .httpError 400 "thread_id, assistant_id, and message are required" :=
  ⟨C4_chat_message_400.1 _ (Or.inr (Or.inl rfl)),
   C4_chat_message_400.2 _ (Or.inr (Or.inr rfl))⟩

/-- C5: an extract-pdf upload carrying a non-PDF content type (nonempty, not
containing "pdf" after lowercasing) is rejected with 400; the result does not
depend on the body read or the parse, so neither is attempted. -/
theorem C5_extract_pdf_content_type (ct : List Nat) (read : ReadResult)
    (parse : ParseResult) (hne : ct ≠ [])
    (hnp : isSubstrOf (strCp "pdf") (lowerCp ct) = false) :
    extract_pdf (some ct) read parse = .httpError 400 "File must be a PDF" := by
  unfold extract_pdf
  have h1 : pyTruthy (some ct) = true := by
    simp [pyTruthy, List.isEmpty_iff, hne]
  simp [h1, hnp]

/-- Witness for C5 at content type "text/plain". -/
theorem C5_extract_pdf_content_type_witness :
    strCp "text/plain" ≠ [] ∧
    isSubstrOf (strCp "pdf") (lowerCp (strCp "text/plain")) = false ∧
    extract_pdf (some (strCp "text/plain")) (.ok []) (.raised "bad") =
      .httpError 400 "File must be a PDF" :=
  ⟨by decide, by decide,
   C5_extract_pdf_content_type _ (.ok []) (.raised "bad") (by decide) (by decide)⟩

/-- C6: when the run completed, `send_message` returns the first text content
block of the most recent message (the head of the descending message list);
with an empty list or no text block it returns the fixed fallback string. -/
theorem C6_send_message_first_text (messagesData : List ThreadMessage) :
    send_message "completed" messagesData =
      .ok ((messagesData.head?.bind
        (fun m => firstTextValue m.content)).getD FALLBACK) := by
  unfold send_message extract_response
  rw [if_neg (by simp)]
  cases messagesData with
  | nil => rfl
  | cons m rest => cases h : firstTextValue m.content <;> simp [h]

/-- C7: whenever the transcription handler wrote its temporary file, the file
no longer exists when the handler returns — on the remote-success and the
remote-exception path alike. -/
theorem C7_transcribe_temp_deleted (filename : Option (List Nat))
    (remote : RemoteTranscription)
    (h : (transcribe filename remote).2.written = true) :
    (transcribe filename remote).2.exists_now = false := by
  unfold transcribe at h ⊢
  by_cases hm : _extension (filename.getD []) ∈ ALLOWED_AUDIO_EXTENSIONS
  · cases remote <;> simp [hm]
  · cases remote <;> simp [hm] at h

/-- Witness for C7: a valid upload whose remote transcription raises. -/
theorem C7_transcribe_temp_deleted_witness :
    (transcribe (some (strCp "a.wav")) (.raised "boom")).2.written = true ∧
    (transcribe (some (strCp "a.wav")) (.raised "boom")).2.exists_now = false :=
  ⟨by decide, C7_transcribe_temp_deleted _ _ (by decide)⟩

/-- C8: failure of the assistant deletion propagates (and nothing further is
attempted); once the assistant deletion succeeds the overall operation
succeeds regardless of the optional deletions' outcomes, and the vector-store
and file deletions are attempted, in that order, exactly when their ids were
supplied. -/
theorem C8_delete_assistant_error_handling
    (vector_store_id file_id : Option String) (env : DeleteEnv) :
    (∀ e, env.assistantDelete = .err e →
      delete_assistant vector_store_id file_id env =
        ([.assistantDel], .error e)) ∧
    (env.assistantDelete = .ok →
      delete_assistant vector_store_id file_id env =
        (.assistantDel ::
          (if vector_store_id.isSome then [.vectorStoreDel] else []) ++
          (if file_id.isSome then [.fileDel] else []), .ok ())) := by
  constructor
  · intro e he
    unfold delete_assistant
    rw [he]
  · intro hok
    unfold delete_assistant
    rw [hok]
    cases vector_store_id <;> cases file_id <;>
      cases hv : env.vectorStoreDelete <;> cases hf : env.fileDelete <;> simp

/-- Witness for C8: a failing vector-store deletion is swallowed and the file
deletion still attempted; a failing assistant deletion propagates. -/
theorem C8_delete_assistant_witness :
    delete_assistant (some "vs") (some "f") ⟨.ok, .err "vs failed", .ok⟩ =
      ([.assistantDel, .vectorStoreDel, .fileDel], .ok ()) ∧
    delete_assistant (some "vs") (some "f") ⟨.err "denied", .err "vs failed", .ok⟩ =
      ([.assistantDel], .error "denied") := by
  constructor
  · have h := (C8_delete_assistant_error_handling (some "vs") (some "f")
      ⟨.ok, .err "vs failed", .ok⟩).2 rfl
    simpa using h
  · exact (C8_delete_assistant_error_handling (some "vs") (some "f")
      ⟨.err "denied", .err "vs failed", .ok⟩).1 "denied" rfl

/-- C9: a tts request whose text is empty or consists only of whitespace is
rejected with 400; the `synthesize_speech` call (the `audio` outcome) is
never reached. -/
theorem C9_tts_whitespace_400 (text voice : List Nat)
    (h : ∀ c ∈ text, isPyWS c = true) :
    text_to_speech text voice = .httpError 400 "text is required" := by
  have hd : text.dropWhile isPyWS = [] := List.dropWhile_eq_nil_iff.mpr h
  unfold text_to_speech pyStrip
  rw [hd]
  simp

/-- Witness for C9 at the text " \t" (space, tab). -/
theorem C9_tts_whitespace_400_witness :
    (∀ c ∈ [32, 9], isPyWS c = true) ∧
    text_to_speech [32, 9] (strCp "alloy") = .httpError 400 "text is required" :=
  ⟨by decide, C9_tts_whitespace_400 _ _ (by decide)⟩

/-- C10: with an absent or empty content type, the content-type check of
`extract_pdf` is skipped entirely: the request is not rejected there and
proceeds to the body read and PDF parse. -/
theorem C10_extract_pdf_content_type_skipped :
    (∀ (read : ReadResult) (parse : ParseResult),
      extract_pdf none read parse = extract_pdf_after_gate read parse) ∧
    (∀ (read : ReadResult) (parse : ParseResult),
      extract_pdf (some []) read parse = extract_pdf_after_gate read parse) := by
  constructor <;> intro read parse <;> rfl
